import Mathlib

/-!
Verification development for the whatsapp_saas_chatbot repository.

Two parts are embedded:

1. The reply orchestrator (`generate_reply`) of the AI reply workflow.
   The backend Python sources (app/services/ai_service.py and the
   LangGraph agent) are not present in the corpus — only the design
   spec and the architecture diagrams (Diagram 6: analyze_query,
   search_internal, Decision1, search_web, generate_response,
   Decision2, translate_response) describe it.  Those definitions are
   therefore modelled from the spec, faithful to its words, and each
   carries a doc comment saying so.

2. The frontend authentication store (frontend/src/types/index.ts,
   the Zustand store code), which is present in the corpus and is
   embedded directly from the TypeScript source.
-/

namespace WhatsappSaas

/-- A retrieval result entry: source identifier, text snippet and
relevance score (spec section 3, RetrievalResult). -/
structure Snippet where
  source : String
  text : String
  score : Nat
deriving Repr, DecidableEq

/-- An inbound message: tenant id, sender identifier, raw text,
arrival timestamp (spec section 3, InboundMessage). -/
structure InboundMessage where
  tenantId : Nat
  sender : String
  text : String
  arrivalTs : Nat
deriving Repr, DecidableEq

/-- A tenant profile: persona text, supported language list, default
language, knowledge source identifiers (spec section 3, TenantProfile). -/
structure TenantProfile where
  persona : String
  supportedLanguages : List String
  defaultLanguage : String
  knowledgeSources : List String
deriving Repr, DecidableEq

/-- The outcome of one reply generation: generated text,
detected/target language, confidence score, elapsed processing time
(spec section 3, ReplyOutcome). -/
structure ReplyOutcome where
  text : String
  detectedLanguage : String
  targetLanguage : String
  confidence : Nat
  elapsedMs : Nat
deriving Repr, DecidableEq

/-- The only fatal orchestrator error: the language-model call failed
or returned empty (spec section 7, GenerationFailed).  The other error
kinds of section 7 are recovered locally and never surface. -/
inductive GenError where
  | generationFailed
deriving Repr, DecidableEq

/-- Modelled from the spec: the policy constants of the orchestrator
(relevance threshold, minimum result count, top-K, default confidence)
which section 9 says are exposed as configuration. -/
structure OrchConfig where
  threshold : Nat
  minCount : Nat
  topK : Nat
  defaultConfidence : Nat
deriving Repr, DecidableEq

/-- Modelled from the spec: the deterministic external collaborators of
section 6 (language detection, embedding/vector search, web search,
language model completion returning text with optional confidence,
translation), plus the elapsed-time measurement of step 7.  A failed or
timed-out external call is `none`. -/
structure Env where
  detectLanguage : String → String
  internalSearch : String → Option (List Snippet)
  webSearch : String → Option (List Snippet)
  complete : String → Option (String × Option Nat)
  translate : String → String → Option String
  elapsedMs : Nat

/-- How many times each external step ran during one invocation of the
orchestrator (the call-count assertions of spec section 8). -/
structure Trace where
  internalCalls : Nat
  webCalls : Nat
  genCalls : Nat
  transCalls : Nat
deriving Repr, DecidableEq

/-- Modelled from the spec: the fixed clarification text used when the
message text is empty (spec step 1). -/
def clarificationText : String :=
  "Could you please clarify your question?"

/-- Modelled from the spec: the fixed clarification reply produced for
empty input, without invoking retrieval or generation. -/
def clarificationReply (env : Env) (cfg : OrchConfig) (profile : TenantProfile) : ReplyOutcome :=
  { text := clarificationText
    detectedLanguage := profile.defaultLanguage
    targetLanguage := profile.defaultLanguage
    confidence := cfg.defaultConfidence
    elapsedMs := env.elapsedMs }

/-- Graceful degradation of a retrieval call (spec section 4.1 failure
policy): a failed external call contributes no results. -/
def degraded (r : Option (List Snippet)) : List Snippet :=
  r.getD []

/-- Modelled from the spec: the sufficiency decision of step 3
(Diagram 6, Decision1).  Results are sufficient when the top score is
at or above the threshold and at least the minimum count of results
came back; otherwise the web search path is taken. -/
def sufficient (cfg : OrchConfig) (rs : List Snippet) : Bool :=
  match rs.head? with
  | some top => decide (cfg.threshold ≤ top.score) && decide (cfg.minCount ≤ rs.length)
  | none => false

/-- Modelled from the spec: steps 2 to 4 — internal retrieval, the
sufficiency decision, and the optional web search whose results are
merged after the internal ones.  Returns the merged retrieval context
together with the number of web-search invocations. -/
def retrieve (env : Env) (cfg : OrchConfig) (q : String) : List Snippet × Nat :=
  if sufficient cfg (degraded (env.internalSearch q)) then
    (degraded (env.internalSearch q), 0)
  else
    (degraded (env.internalSearch q) ++ degraded (env.webSearch q), 1)

/-- Modelled from the spec: the prompt of step 5, combining the tenant
persona, the retrieved snippets and the message text. -/
def buildPrompt (profile : TenantProfile) (ctx : List Snippet) (q : String) : String :=
  profile.persona ++ "\n" ++ String.intercalate "\n" (ctx.map (fun s => s.text)) ++ "\n" ++ q

/-- Modelled from the spec: step 5 — call the language model on the
built prompt; a failed call or an empty result is fatal
(GenerationFailed); otherwise the draft and a model-reported or
default confidence are produced. -/
def generateStep (env : Env) (cfg : OrchConfig) (profile : TenantProfile)
    (ctx : List Snippet) (q : String) : Except GenError (String × Nat) :=
  match env.complete (buildPrompt profile ctx q) with
  | none => Except.error GenError.generationFailed
  | some (draft, conf) =>
      if draft = "" then Except.error GenError.generationFailed
      else Except.ok (draft, conf.getD cfg.defaultConfidence)

/-- Modelled from the spec: step 6 — the translation decision
(Diagram 6, Decision2).  When the detected language equals the target
the draft is final and translation is not invoked; otherwise the
translation step runs once, and on failure the untranslated draft is
returned (TranslationFailed is non-fatal).  Returns the final text and
the number of translation invocations. -/
def translateStep (env : Env) (lang target draft : String) : String × Nat :=
  if lang = target then (draft, 0)
  else ((env.translate draft target).getD draft, 1)

/-- Modelled from the spec: the reply orchestrator
`generate_reply(message, profile)` of section 4.1 — a sequential
pipeline with the empty-input short-circuit, analysis, retrieval with
the sufficiency decision, generation (fatal on failure) and the
translation decision; stateless, with no retries of its own.  The
backend implementation (app/services/ai_service.py) is not in the
corpus. -/
def generate_reply (env : Env) (cfg : OrchConfig) (msg : InboundMessage)
    (profile : TenantProfile) : Except GenError ReplyOutcome × Trace :=
  if msg.text = "" then
    (Except.ok (clarificationReply env cfg profile), ⟨0, 0, 0, 0⟩)
  else
    match generateStep env cfg profile (retrieve env cfg msg.text).1 msg.text with
    | Except.error e => (Except.error e, ⟨1, (retrieve env cfg msg.text).2, 1, 0⟩)
    | Except.ok (draft, conf) =>
        (Except.ok
          { text := (translateStep env (env.detectLanguage msg.text) profile.defaultLanguage draft).1
            detectedLanguage := env.detectLanguage msg.text
            targetLanguage := profile.defaultLanguage
            confidence := conf
            elapsedMs := env.elapsedMs },
         ⟨1, (retrieve env cfg msg.text).2, 1,
          (translateStep env (env.detectLanguage msg.text) profile.defaultLanguage draft).2⟩)

/-- frontend/src/types/index.ts: the User interface. -/
structure User where
  id : Nat
  email : String
  first_name : String
  last_name : String
  phone : String
  is_active : Bool
  created_at : String
  updated_at : String
deriving Repr, DecidableEq

/-- frontend/src/types/index.ts: the Business interface. -/
structure Business where
  id : Nat
  user_id : Nat
  name : String
  description : String
  website_url : Option String
  whatsapp_phone_number : String
  business_category : Option String
  ai_persona : String
  supported_languages : List String
  default_language : String
  is_active : Bool
  created_at : String
  updated_at : String
deriving Repr, DecidableEq

/-- The data fields of the Zustand auth store (AuthState in
frontend/src/types/index.ts).  The action closures are modelled as the
functions below; `set` performs a shallow merge, so only the written
fields change. -/
structure AuthStoreState where
  user : Option User
  businesses : List Business
  selectedBusiness : Option Business
  isAuthenticated : Bool
  isLoading : Bool
deriving Repr, DecidableEq

/-- The setBusinesses action of the auth store: first set the
businesses field to the given list, then, if the list is non-empty and
no business is currently selected (the condition reads the state after
the first set), select the first element of the list. -/
def setBusinesses (s : AuthStoreState) (bs : List Business) : AuthStoreState :=
  let s1 : AuthStoreState := { s with businesses := bs }
  if 0 < bs.length && s1.selectedBusiness.isNone then
    { s1 with selectedBusiness := bs.head? }
  else s1

/-- The auth store state together with the API client's persisted
token (the JWT kept in localStorage by the api client). -/
structure FrontendWorld where
  store : AuthStoreState
  apiToken : Option String
deriving Repr, DecidableEq

/-- Modelled from the spec: apiClient.removeToken clears the JWT
persisted in localStorage (frontend/src/lib/api-client.ts is not in
the corpus; the architecture docs describe localStorage token
persistence). -/
def removeToken (w : FrontendWorld) : FrontendWorld :=
  { w with apiToken := none }

/-- The logout action of the auth store: remove the API token, then
clear user, businesses, selectedBusiness and isAuthenticated.  (The
isLoading field is not written by logout.) -/
def logout (w : FrontendWorld) : FrontendWorld :=
  let w1 := removeToken w
  { w1 with
      store := { w1.store with
                   user := none
                   businesses := []
                   selectedBusiness := none
                   isAuthenticated := false } }

/-! Concrete fixtures used by the witness theorems. -/

/-- A concrete snippet that scores above the example threshold. -/
def snipA : Snippet := { source := "doc1", text := "We are open 9 to 5.", score := 90 }

/-- A concrete inbound message with non-empty text. -/
def msgA : InboundMessage :=
  { tenantId := 1, sender := "alice", text := "what are your opening hours", arrivalTs := 0 }

/-- A concrete inbound message with empty text. -/
def msgE : InboundMessage := { tenantId := 1, sender := "alice", text := "", arrivalTs := 0 }

/-- A concrete tenant profile whose default language is English. -/
def profileA : TenantProfile :=
  { persona := "You are a helpful business assistant."
    supportedLanguages := ["si", "en"]
    defaultLanguage := "en"
    knowledgeSources := ["kb1"] }

/-- A concrete configuration: threshold 70, minimum count 1, top-K 5. -/
def cfgA : OrchConfig := { threshold := 70, minCount := 1, topK := 5, defaultConfidence := 50 }

/-- Deterministic stub collaborators where internal retrieval succeeds
with one high-scoring result. -/
def envA : Env :=
  { detectLanguage := fun _ => "en"
    internalSearch := fun _ => some [snipA]
    webSearch := fun _ => some [{ source := "web1", text := "web snippet", score := 40 }]
    complete := fun _ => some ("We are open from 9 to 5.", some 80)
    translate := fun _ _ => some "translated text"
    elapsedMs := 12 }

/-- Stub collaborators where internal retrieval returns zero results. -/
def envB : Env := { envA with internalSearch := fun _ => some [] }

/-- Stub collaborators where the language-model call fails. -/
def envC : Env := { envA with complete := fun _ => none }

/-- Stub collaborators where the internal retrieval call itself fails. -/
def envD : Env := { envA with internalSearch := fun _ => none }

/-- A concrete business record. -/
def bizA : Business :=
  { id := 1
    user_id := 1
    name := "Acme Stores"
    description := "a shop"
    website_url := none
    whatsapp_phone_number := "+94770000000"
    business_category := none
    ai_persona := "You are a helpful business assistant."
    supported_languages := ["si", "en"]
    default_language := "si"
    is_active := true
    created_at := "2024-01-01"
    updated_at := "2024-01-01" }

/-- A second concrete business record. -/
def bizB : Business := { bizA with id := 2, name := "Beta Mart" }

/-- A concrete auth store state with no selected business. -/
def storeNoSel : AuthStoreState :=
  { user := none, businesses := [], selectedBusiness := none
    isAuthenticated := false, isLoading := false }

/-- A concrete auth store state with bizB selected. -/
def storeSelB : AuthStoreState :=
  { user := none, businesses := [bizB], selectedBusiness := some bizB
    isAuthenticated := true, isLoading := false }

/-! Helper lemmas shared by the claim theorems. -/

/-- The web-search step runs at most once per retrieval. -/
theorem retrieve_snd_le_one (env : Env) (cfg : OrchConfig) (q : String) :
    (retrieve env cfg q).2 ≤ 1 := by
  unfold retrieve
  split <;> simp

/-- For non-empty input the orchestrator performs exactly one internal
retrieval, exactly one generation call, and as many web-search calls as
the retrieval stage reports. -/
theorem generate_reply_counts (env : Env) (cfg : OrchConfig) (msg : InboundMessage)
    (profile : TenantProfile) (h : msg.text ≠ "") :
    (generate_reply env cfg msg profile).2.internalCalls = 1 ∧
    (generate_reply env cfg msg profile).2.genCalls = 1 ∧
    (generate_reply env cfg msg profile).2.webCalls = (retrieve env cfg msg.text).2 := by
  unfold generate_reply
  rw [if_neg h]
  cases hg : generateStep env cfg profile (retrieve env cfg msg.text).1 msg.text with
  | error e => exact ⟨rfl, rfl, rfl⟩
  | ok dc =>
      obtain ⟨d, c⟩ := dc
      exact ⟨rfl, rfl, rfl⟩

/-- C1: for every non-empty inbound message and tenant profile,
generate_reply either returns exactly one ReplyOutcome or raises
GenerationFailed (the result is a single Except value, so never zero
and never more than one outcome), and it performs no retries of its
own: each external step runs at most once. -/
theorem generate_reply_single_outcome (env : Env) (cfg : OrchConfig) (msg : InboundMessage)
    (profile : TenantProfile) (h : msg.text ≠ "") :
    ((∃ o, (generate_reply env cfg msg profile).1 = Except.ok o) ∨
      (generate_reply env cfg msg profile).1 = Except.error GenError.generationFailed) ∧
    (generate_reply env cfg msg profile).2.genCalls ≤ 1 ∧
    (generate_reply env cfg msg profile).2.internalCalls ≤ 1 ∧
    (generate_reply env cfg msg profile).2.webCalls ≤ 1 := by
  obtain ⟨hi, hg, hw⟩ := generate_reply_counts env cfg msg profile h
  refine ⟨?_, by omega, by omega, ?_⟩
  · cases hr : (generate_reply env cfg msg profile).1 with
    | ok o => exact Or.inl ⟨o, rfl⟩
    | error e => cases e; exact Or.inr rfl
  · rw [hw]
    exact retrieve_snd_le_one env cfg msg.text

/-- C1 witness: the single-outcome theorem applied to a concrete
non-empty message and stub configuration. -/
theorem generate_reply_single_outcome_witness :
    msgA.text ≠ "" ∧
    (((∃ o, (generate_reply envA cfgA msgA profileA).1 = Except.ok o) ∨
       (generate_reply envA cfgA msgA profileA).1 = Except.error GenError.generationFailed) ∧
     (generate_reply envA cfgA msgA profileA).2.genCalls ≤ 1 ∧
     (generate_reply envA cfgA msgA profileA).2.internalCalls ≤ 1 ∧
     (generate_reply envA cfgA msgA profileA).2.webCalls ≤ 1) :=
  ⟨by decide, generate_reply_single_outcome envA cfgA msgA profileA (by decide)⟩

/-- C2: for every inbound message whose text is empty, generate_reply
returns the fixed clarification reply and invokes neither the
retrieval step (internal or web search) nor the generation step. -/
theorem generate_reply_empty_input (env : Env) (cfg : OrchConfig) (msg : InboundMessage)
    (profile : TenantProfile) (h : msg.text = "") :
    (generate_reply env cfg msg profile).1 = Except.ok (clarificationReply env cfg profile) ∧
    (generate_reply env cfg msg profile).2.internalCalls = 0 ∧
    (generate_reply env cfg msg profile).2.webCalls = 0 ∧
    (generate_reply env cfg msg profile).2.genCalls = 0 := by
  unfold generate_reply
  rw [if_pos h]
  exact ⟨rfl, rfl, rfl, rfl⟩

/-- C2 witness: the empty-input theorem applied to a concrete message
with empty text. -/
theorem generate_reply_empty_input_witness :
    msgE.text = "" ∧
    ((generate_reply envA cfgA msgE profileA).1 =
        Except.ok (clarificationReply envA cfgA profileA) ∧
     (generate_reply envA cfgA msgE profileA).2.internalCalls = 0 ∧
     (generate_reply envA cfgA msgE profileA).2.webCalls = 0 ∧
     (generate_reply envA cfgA msgE profileA).2.genCalls = 0) :=
  ⟨rfl, generate_reply_empty_input envA cfgA msgE profileA rfl⟩

/-- C3: when internal retrieval returns a top result scoring at or
above the threshold with at least the minimum count of results, the
web-search step is never invoked, the pipeline goes straight to
generation (exactly one generation call), and the retrieval context
passed to generation is exactly the internal results — the sufficiency
decision is the only branch taken before generation. -/
theorem generate_reply_sufficient_no_web (env : Env) (cfg : OrchConfig) (msg : InboundMessage)
    (profile : TenantProfile) (top : Snippet) (rest : List Snippet)
    (h : msg.text ≠ "")
    (hint : env.internalSearch msg.text = some (top :: rest))
    (hscore : cfg.threshold ≤ top.score)
    (hcount : cfg.minCount ≤ (top :: rest).length) :
    (generate_reply env cfg msg profile).2.webCalls = 0 ∧
    (generate_reply env cfg msg profile).2.genCalls = 1 ∧
    (retrieve env cfg msg.text).1 = top :: rest := by
  have hs : sufficient cfg (degraded (env.internalSearch msg.text)) = true := by
    rw [hint]
    show sufficient cfg (top :: rest) = true
    have hcount2 : cfg.minCount ≤ rest.length + 1 := by simpa using hcount
    simp [sufficient, hscore, hcount2]
  have hret : retrieve env cfg msg.text = (top :: rest, 0) := by
    unfold retrieve
    rw [if_pos hs, hint]
    rfl
  obtain ⟨hi, hg, hw⟩ := generate_reply_counts env cfg msg profile h
  refine ⟨?_, hg, ?_⟩
  · rw [hw, hret]
  · rw [hret]

/-- C3 witness: the sufficiency theorem applied to stubs whose internal
retrieval returns one result scoring 90 against threshold 70. -/
theorem generate_reply_sufficient_no_web_witness :
    msgA.text ≠ "" ∧
    envA.internalSearch msgA.text = some (snipA :: []) ∧
    cfgA.threshold ≤ snipA.score ∧
    cfgA.minCount ≤ (snipA :: ([] : List Snippet)).length ∧
    ((generate_reply envA cfgA msgA profileA).2.webCalls = 0 ∧
     (generate_reply envA cfgA msgA profileA).2.genCalls = 1 ∧
     (retrieve envA cfgA msgA.text).1 = snipA :: []) :=
  ⟨by decide, rfl, by decide, by decide,
   generate_reply_sufficient_no_web envA cfgA msgA profileA snipA []
     (by decide) rfl (by decide) (by decide)⟩

/-- C4: when internal retrieval returns zero results (for non-empty
input), the web-search step is invoked exactly once and the retrieval
context is the internal results followed by the web results (web
results ranked after internal ones). -/
theorem generate_reply_zero_results_web_once (env : Env) (cfg : OrchConfig)
    (msg : InboundMessage) (profile : TenantProfile)
    (h : msg.text ≠ "")
    (hint : env.internalSearch msg.text = some []) :
    (generate_reply env cfg msg profile).2.webCalls = 1 ∧
    (retrieve env cfg msg.text).1 =
      degraded (env.internalSearch msg.text) ++ degraded (env.webSearch msg.text) := by
  have hs : ¬ (sufficient cfg (degraded (env.internalSearch msg.text)) = true) := by
    simp [hint, sufficient, degraded]
  have hret : retrieve env cfg msg.text =
      (degraded (env.internalSearch msg.text) ++ degraded (env.webSearch msg.text), 1) := by
    unfold retrieve
    rw [if_neg hs]
  obtain ⟨hi, hg, hw⟩ := generate_reply_counts env cfg msg profile h
  refine ⟨?_, ?_⟩
  · rw [hw, hret]
  · rw [hret]

/-- C4 witness: the zero-results theorem applied to stubs whose
internal retrieval returns an empty list. -/
theorem generate_reply_zero_results_web_once_witness :
    msgA.text ≠ "" ∧
    envB.internalSearch msgA.text = some [] ∧
    ((generate_reply envB cfgA msgA profileA).2.webCalls = 1 ∧
     (retrieve envB cfgA msgA.text).1 =
       degraded (envB.internalSearch msgA.text) ++ degraded (envB.webSearch msgA.text)) :=
  ⟨by decide, rfl, generate_reply_zero_results_web_once envB cfgA msgA profileA (by decide) rfl⟩

/-- C5: for non-empty input, if the language-model call of the
generation step fails or returns empty text, generate_reply raises
GenerationFailed to its caller and returns no ReplyOutcome. -/
theorem generate_reply_generation_failure_fatal (env : Env) (cfg : OrchConfig)
    (msg : InboundMessage) (profile : TenantProfile)
    (h : msg.text ≠ "")
    (hfail : env.complete (buildPrompt profile (retrieve env cfg msg.text).1 msg.text) = none ∨
      ∃ c, env.complete (buildPrompt profile (retrieve env cfg msg.text).1 msg.text) =
        some ("", c)) :
    (generate_reply env cfg msg profile).1 = Except.error GenError.generationFailed := by
  have hg : generateStep env cfg profile (retrieve env cfg msg.text).1 msg.text =
      Except.error GenError.generationFailed := by
    unfold generateStep
    rcases hfail with hf | ⟨c, hf⟩
    · rw [hf]
    · rw [hf]
      rfl
  unfold generate_reply
  rw [if_neg h, hg]

/-- C5 witness: the fatal-generation theorem applied to stubs whose
language-model call fails. -/
theorem generate_reply_generation_failure_fatal_witness :
    msgA.text ≠ "" ∧
    envC.complete (buildPrompt profileA (retrieve envC cfgA msgA.text).1 msgA.text) = none ∧
    (generate_reply envC cfgA msgA profileA).1 = Except.error GenError.generationFailed :=
  ⟨by decide, rfl,
   generate_reply_generation_failure_fatal envC cfgA msgA profileA (by decide) (Or.inl rfl)⟩

/-- C6: for non-empty input a failure of the internal-retrieval call
or of the web-search call does not abort the pipeline: generation is
still invoked exactly once, and the retrieval context consists of
whatever partial results remain (only web results when internal search
failed, only internal results when web search failed — possibly the
empty sequence). -/
theorem generate_reply_retrieval_failure_degrades (env : Env) (cfg : OrchConfig)
    (msg : InboundMessage) (profile : TenantProfile) (h : msg.text ≠ "") :
    (generate_reply env cfg msg profile).2.genCalls = 1 ∧
    (env.internalSearch msg.text = none →
      (retrieve env cfg msg.text).1 = degraded (env.webSearch msg.text)) ∧
    (env.webSearch msg.text = none →
      (retrieve env cfg msg.text).1 = degraded (env.internalSearch msg.text)) := by
  refine ⟨(generate_reply_counts env cfg msg profile h).2.1, ?_, ?_⟩
  · intro hint
    have hs : ¬ (sufficient cfg (degraded (env.internalSearch msg.text)) = true) := by
      simp [hint, sufficient, degraded]
    unfold retrieve
    rw [if_neg hs, hint]
    rfl
  · intro hweb
    unfold retrieve
    split
    · rfl
    · rw [hweb]
      simp [degraded]

/-- C6 witness: the graceful-degradation theorem applied to stubs whose
internal retrieval call fails. -/
theorem generate_reply_retrieval_failure_degrades_witness :
    msgA.text ≠ "" ∧
    ((generate_reply envD cfgA msgA profileA).2.genCalls = 1 ∧
     (envD.internalSearch msgA.text = none →
       (retrieve envD cfgA msgA.text).1 = degraded (envD.webSearch msgA.text)) ∧
     (envD.webSearch msgA.text = none →
       (retrieve envD cfgA msgA.text).1 = degraded (envD.internalSearch msgA.text))) :=
  ⟨by decide, generate_reply_retrieval_failure_degrades envD cfgA msgA profileA (by decide)⟩

/-- C7: for non-empty input whose detected language equals the
tenant's default language, the translation step is never invoked and
the generated draft is the final reply text (translation may only run
when the detected language differs). -/
theorem generate_reply_translation_skip (env : Env) (cfg : OrchConfig) (msg : InboundMessage)
    (profile : TenantProfile)
    (h : msg.text ≠ "")
    (hl : env.detectLanguage msg.text = profile.defaultLanguage) :
    (generate_reply env cfg msg profile).2.transCalls = 0 ∧
    (∀ d c,
      env.complete (buildPrompt profile (retrieve env cfg msg.text).1 msg.text) = some (d, c) →
      d ≠ "" →
      (generate_reply env cfg msg profile).1 =
        Except.ok
          { text := d
            detectedLanguage := env.detectLanguage msg.text
            targetLanguage := profile.defaultLanguage
            confidence := c.getD cfg.defaultConfidence
            elapsedMs := env.elapsedMs }) := by
  constructor
  · unfold generate_reply
    rw [if_neg h]
    cases hg : generateStep env cfg profile (retrieve env cfg msg.text).1 msg.text with
    | error e => rfl
    | ok dc =>
        obtain ⟨d, cf⟩ := dc
        show (translateStep env (env.detectLanguage msg.text) profile.defaultLanguage d).2 = 0
        unfold translateStep
        rw [if_pos hl]
  · intro d c hc hd
    have hg : generateStep env cfg profile (retrieve env cfg msg.text).1 msg.text =
        Except.ok (d, c.getD cfg.defaultConfidence) := by
      unfold generateStep
      rw [hc]
      simp [hd]
    unfold generate_reply
    rw [if_neg h, hg]
    simp [translateStep, hl]

/-- C7 witness: the translation-skip theorem applied to stubs that
detect English on a tenant whose default language is English. -/
theorem generate_reply_translation_skip_witness :
    msgA.text ≠ "" ∧
    envA.detectLanguage msgA.text = profileA.defaultLanguage ∧
    ((generate_reply envA cfgA msgA profileA).2.transCalls = 0 ∧
     (∀ d c,
       envA.complete (buildPrompt profileA (retrieve envA cfgA msgA.text).1 msgA.text) =
         some (d, c) →
       d ≠ "" →
       (generate_reply envA cfgA msgA profileA).1 =
         Except.ok
           { text := d
             detectedLanguage := envA.detectLanguage msgA.text
             targetLanguage := profileA.defaultLanguage
             confidence := c.getD cfgA.defaultConfidence
             elapsedMs := envA.elapsedMs })) :=
  ⟨by decide, rfl, generate_reply_translation_skip envA cfgA msgA profileA (by decide) rfl⟩

/-- C8: with all collaborators fixed to deterministic stubs, two calls
of generate_reply with identical message and profile inputs produce
identical results (in particular identical reply text); the modelled
orchestrator takes no state argument and returns none, so no internal
state is retained between calls. -/
theorem generate_reply_deterministic (env : Env) (cfg : OrchConfig)
    (m1 m2 : InboundMessage) (p1 p2 : TenantProfile)
    (hm : m1 = m2) (hp : p1 = p2) :
    generate_reply env cfg m1 p1 = generate_reply env cfg m2 p2 := by
  rw [hm, hp]

/-- C8 witness: determinism applied to two calls at the same concrete
message and profile. -/
theorem generate_reply_deterministic_witness :
    generate_reply envA cfgA msgA profileA = generate_reply envA cfgA msgA profileA :=
  generate_reply_deterministic envA cfgA msgA msgA profileA profileA rfl rfl

/-- C9: setBusinesses with list L sets the businesses field to L; if L
is non-empty and no business is currently selected, selectedBusiness
becomes the first element of L; if a business is already selected,
selectedBusiness is left unchanged (the statement quantifies over all
prior states, so in particular over states whose selected business does
not occur in L). -/
theorem setBusinesses_spec (s : AuthStoreState) (bs : List Business) :
    (setBusinesses s bs).businesses = bs ∧
    (bs ≠ [] → s.selectedBusiness = none →
      (setBusinesses s bs).selectedBusiness = bs.head?) ∧
    (s.selectedBusiness ≠ none →
      (setBusinesses s bs).selectedBusiness = s.selectedBusiness) := by
  refine ⟨?_, ?_, ?_⟩
  · simp only [setBusinesses]
    split <;> rfl
  · intro hbs hsel
    simp [setBusinesses, hsel, hbs, List.length_pos]
  · intro hsel
    simp [setBusinesses, Option.isNone_iff_eq_none, hsel]

/-- C9 witness: setBusinesses on a state with no selection selects the
first business of the new list, and on a state with bizB selected it
keeps bizB selected even though the new list does not contain it. -/
theorem setBusinesses_spec_witness :
    (setBusinesses storeNoSel [bizA, bizB]).businesses = [bizA, bizB] ∧
    (setBusinesses storeNoSel [bizA, bizB]).selectedBusiness =
      ([bizA, bizB] : List Business).head? ∧
    (setBusinesses storeSelB [bizA]).selectedBusiness = storeSelB.selectedBusiness :=
  ⟨(setBusinesses_spec storeNoSel [bizA, bizB]).1,
   (setBusinesses_spec storeNoSel [bizA, bizB]).2.1 (by decide) rfl,
   (setBusinesses_spec storeSelB [bizA]).2.2 (by decide)⟩

/-- C10: after logout, regardless of the prior state, user is null,
businesses is the empty list, selectedBusiness is null,
isAuthenticated is false, and the stored API token has been removed. -/
theorem logout_spec (w : FrontendWorld) :
    (logout w).store.user = none ∧
    (logout w).store.businesses = [] ∧
    (logout w).store.selectedBusiness = none ∧
    (logout w).store.isAuthenticated = false ∧
    (logout w).apiToken = none :=
  ⟨rfl, rfl, rfl, rfl, rfl⟩

end WhatsappSaas
